import Mathlib

/-!
Verification of the IGsnitched backend (`backend/main.py`) against its
natural-language specification.  The Python module is shallowly embedded:
pure functions become Lean functions on `List String` / `Int`; the calls into
Python's `random` module are modelled by an explicit draw oracle
`g : Nat → Nat`, reduced into range exactly as any implementation of the
documented `random.randint` / `random.sample` contracts must; wall-clock
timestamps become an explicit `now : String` parameter.
-/

namespace IGsnitched

/-! ## Commentary engine (`generate_commentary`, main.py lines 43-63) -/

/-- The fallback remark appended when no activity was detected
(main.py line 62). -/
def fallbackRemark : String :=
  "No new follows or unfollows. Brad must be asleep or plotting."

/-- Singular new-follow remark (main.py line 51). -/
def singularNewRemark (h : String) : String :=
  "He\x27s now following " ++ h ++ ". Someone\x27s feeling adventurous."

/-- Plural new-follow remark (main.py lines 53-54): the handles are joined
with a comma and a space, in the order of the input list. -/
def pluralNewRemark (hs : List String) : String :=
  "He\x27s now following " ++ String.intercalate ", " hs ++ ". Guess the DMs were empty."

/-- Singular unfollow remark (main.py line 57). -/
def singularUnfollowRemark (h : String) : String :=
  "He unfollowed " ++ h ++ ". Pretending to be loyal now?"

/-- Plural unfollow remark (main.py lines 59-60). -/
def pluralUnfollowRemark (hs : List String) : String :=
  "He unfollowed " ++ String.intercalate ", " hs ++ ". Spring cleaning his feed, huh?"

/-- The list of remarks contributed by the `if new_follows:` block
(main.py lines 49-54): nothing for an empty list, the singular remark for a
one-element list, the plural remark otherwise. -/
def newFollowRemarks : List String → List String
  | [] => []
  | [h] => [singularNewRemark h]
  | hs => [pluralNewRemark hs]

/-- The list of remarks contributed by the `if unfollows:` block
(main.py lines 55-60). -/
def unfollowRemarks : List String → List String
  | [] => []
  | [h] => [singularUnfollowRemark h]
  | hs => [pluralUnfollowRemark hs]

/-- Embedding of `generate_commentary` (main.py lines 43-63): collect the
remark for each nonempty input list, fall back to `fallbackRemark` when no
remark was produced, and join the remarks with a single space
(`" ".join(remarks)`). -/
def generate_commentary (new_follows unfollows : List String) : String :=
  let remarks := newFollowRemarks new_follows ++ unfollowRemarks unfollows
  let remarks := if remarks.isEmpty then [fallbackRemark] else remarks
  String.intercalate " " remarks

/-! ### Basic facts about `String.intercalate " "` on the short remark lists
the engine actually builds (zero, one or two remarks). -/

theorem intercalate_space_single (x : String) : String.intercalate " " [x] = x := by
  simp [String.intercalate, String.intercalate.go]

theorem intercalate_space_pair (x y : String) :
    String.intercalate " " [x, y] = x ++ " " ++ y := by
  simp [String.intercalate, String.intercalate.go]

/-- A string whose first character is `H` is not the fallback remark
(which starts with `N`). -/
theorem ne_fallback_of_head (s : String) (hs : s.data.head? = some 'H') :
    s ≠ fallbackRemark := by
  intro e
  rw [e] at hs
  exact absurd hs (by decide)

theorem singularNewRemark_ne_fallback (a : String) :
    singularNewRemark a ≠ fallbackRemark :=
  ne_fallback_of_head _ rfl

theorem pluralNewRemark_ne_fallback (l : List String) :
    pluralNewRemark l ≠ fallbackRemark :=
  ne_fallback_of_head _ rfl

theorem singularUnfollowRemark_ne_fallback (b : String) :
    singularUnfollowRemark b ≠ fallbackRemark :=
  ne_fallback_of_head _ rfl

theorem pluralUnfollowRemark_ne_fallback (l : List String) :
    pluralUnfollowRemark l ≠ fallbackRemark :=
  ne_fallback_of_head _ rfl

theorem singSing_ne_fallback (a b : String) :
    singularNewRemark a ++ " " ++ singularUnfollowRemark b ≠ fallbackRemark :=
  ne_fallback_of_head _ rfl

theorem singPlur_ne_fallback (a : String) (l : List String) :
    singularNewRemark a ++ " " ++ pluralUnfollowRemark l ≠ fallbackRemark :=
  ne_fallback_of_head _ rfl

theorem plurSing_ne_fallback (l : List String) (b : String) :
    pluralNewRemark l ++ " " ++ singularUnfollowRemark b ≠ fallbackRemark :=
  ne_fallback_of_head _ rfl

theorem plurPlur_ne_fallback (l m : List String) :
    pluralNewRemark l ++ " " ++ pluralUnfollowRemark m ≠ fallbackRemark :=
  ne_fallback_of_head _ rfl

/-- C1: `generate_commentary` emits the singular remark naming the single
handle when an input list has exactly one member and the plural remark
listing all members when it has two or more; the new-follows sentence comes
before the unfollows sentence; the sentences are joined with a single
separating space; and the output is exactly the fallback "no activity"
remark if and only if both inputs are empty. -/
theorem commentary_selection_policy (nf uf : List String) :
    (generate_commentary nf uf = fallbackRemark ↔ (nf = [] ∧ uf = []))
  ∧ (∀ a, nf = [a] → uf = [] → generate_commentary nf uf = singularNewRemark a)
  ∧ (2 ≤ nf.length → uf = [] → generate_commentary nf uf = pluralNewRemark nf)
  ∧ (∀ b, nf = [] → uf = [b] → generate_commentary nf uf = singularUnfollowRemark b)
  ∧ (nf = [] → 2 ≤ uf.length → generate_commentary nf uf = pluralUnfollowRemark uf)
  ∧ (∀ a b, nf = [a] → uf = [b] →
      generate_commentary nf uf = singularNewRemark a ++ " " ++ singularUnfollowRemark b)
  ∧ (∀ a, nf = [a] → 2 ≤ uf.length →
      generate_commentary nf uf = singularNewRemark a ++ " " ++ pluralUnfollowRemark uf)
  ∧ (∀ b, 2 ≤ nf.length → uf = [b] →
      generate_commentary nf uf = pluralNewRemark nf ++ " " ++ singularUnfollowRemark b)
  ∧ (2 ≤ nf.length → 2 ≤ uf.length →
      generate_commentary nf uf = pluralNewRemark nf ++ " " ++ pluralUnfollowRemark uf) := by
  rcases nf with _ | ⟨a, _ | ⟨a2, nt⟩⟩ <;>
    rcases uf with _ | ⟨b, _ | ⟨b2, ut⟩⟩ <;>
    simp [generate_commentary, newFollowRemarks, unfollowRemarks,
      intercalate_space_single, intercalate_space_pair,
      singularNewRemark_ne_fallback, pluralNewRemark_ne_fallback,
      singularUnfollowRemark_ne_fallback, pluralUnfollowRemark_ne_fallback,
      singSing_ne_fallback, singPlur_ne_fallback,
      plurSing_ne_fallback, plurPlur_ne_fallback]

/-- Verification of C1 at a concrete input: one new follow and one unfollow
produce the two singular remarks in order, space separated. -/
theorem commentary_selection_policy_witness :
    generate_commentary ["alice"] ["bob"] =
      singularNewRemark "alice" ++ " " ++ singularUnfollowRemark "bob" :=
  (commentary_selection_policy ["alice"] ["bob"]).2.2.2.2.2.1 "alice" "bob" rfl rfl

/-- C2 counterexample: the two input lists `["brad2", "brad1"]` and
`["brad1", "brad2"]` contain the same handles (they are permutations of each
other), yet `generate_commentary` produces different strings: the plural
remark lists the handles in the order supplied, not in sorted order, so the
output is not a function of cardinality and membership alone. -/
theorem commentary_not_membership_invariant :
    List.Perm ["brad2", "brad1"] ["brad1", "brad2"]
  ∧ generate_commentary ["brad2", "brad1"] [] ≠ generate_commentary ["brad1", "brad2"] [] := by
  constructor
  · decide
  · decide

/-- C2 amended: the plural-form remark lists the handles in the exact order
they appear in the input list (joined by a comma and a space); the output is
a function of the two input lists themselves, not of their membership as
sets. -/
theorem commentary_plural_lists_in_given_order (nf uf : List String)
    (h1 : 2 ≤ nf.length) (h2 : 2 ≤ uf.length) :
    generate_commentary nf uf = pluralNewRemark nf ++ " " ++ pluralUnfollowRemark uf
  ∧ pluralNewRemark nf =
      "He\x27s now following " ++ String.intercalate ", " nf ++ ". Guess the DMs were empty."
  ∧ pluralUnfollowRemark uf =
      "He unfollowed " ++ String.intercalate ", " uf ++ ". Spring cleaning his feed, huh?" := by
  rcases nf with _ | ⟨a, _ | ⟨a2, nt⟩⟩
  · exact absurd h1 (by simp)
  · exact absurd h1 (by simp)
  · rcases uf with _ | ⟨b, _ | ⟨b2, ut⟩⟩
    · exact absurd h2 (by simp)
    · exact absurd h2 (by simp)
    · refine ⟨?_, rfl, rfl⟩
      simp [generate_commentary, newFollowRemarks, unfollowRemarks, intercalate_space_pair]

/-- Verification of the amended C2 at a concrete input: the handles appear
in the supplied (unsorted) order. -/
theorem commentary_plural_lists_in_given_order_witness :
    generate_commentary ["b", "a"] ["d", "c"] =
      pluralNewRemark ["b", "a"] ++ " " ++ pluralUnfollowRemark ["d", "c"]
  ∧ pluralNewRemark ["b", "a"] =
      "He\x27s now following " ++ String.intercalate ", " ["b", "a"] ++ ". Guess the DMs were empty."
  ∧ pluralUnfollowRemark ["d", "c"] =
      "He unfollowed " ++ String.intercalate ", " ["d", "c"] ++ ". Spring cleaning his feed, huh?" :=
  commentary_plural_lists_in_given_order ["b", "a"] ["d", "c"] (by decide) (by decide)

/-- C3: `generate_commentary` is deterministic — it is a pure function of
its two list arguments (the embedding takes no clock, randomness oracle or
state), so two invocations on equal inputs return equal strings. -/
theorem generate_commentary_deterministic (nf uf nf2 uf2 : List String)
    (h1 : nf = nf2) (h2 : uf = uf2) :
    generate_commentary nf uf = generate_commentary nf2 uf2 := by
  rw [h1, h2]

/-- Verification of C3 at a concrete input. -/
theorem generate_commentary_deterministic_witness :
    generate_commentary ["x"] ["y"] = generate_commentary ["x"] ["y"] :=
  generate_commentary_deterministic ["x"] ["y"] ["x"] ["y"] rfl rfl

/-! ## Snapshot data model and Diff Engine (spec sections 3 and 4.1) -/

/-- A point-in-time observation of a tracked identity (spec section 3). -/
structure Snapshot where
  identity : String
  observed_at : Nat
  following : Finset String
  total_following : Int

/-- The change between two observations (spec section 3). -/
structure Delta where
  new_follows : Finset String
  unfollows : Finset String

/-- Modelled from the spec: the Diff Engine (spec section 4.1) has no
implementation under src/ — `backend/main.py` holds only the 501 stub for
the real tracking path and random demo data, never a set diff.  Following
the spec's algorithm: `new_follows = current.following − previous.following`,
`unfollows = previous.following − current.following`, and both sets are
empty when `previous` is absent. -/
def diff (previous : Option Snapshot) (current : Snapshot) : Delta :=
  match previous with
  | none => { new_follows := ∅, unfollows := ∅ }
  | some p =>
      { new_follows := current.following \ p.following
        unfollows := p.following \ current.following }

/-- C4: for two snapshots of the same identity the delta's `new_follows`
and `unfollows` are disjoint; both are empty when the relationship sets are
equal; and with no previous snapshot both are empty. -/
theorem diff_delta_invariants (p c : Snapshot) (h : p.identity = c.identity) :
    Disjoint (diff (some p) c).new_follows (diff (some p) c).unfollows
  ∧ (p.following = c.following →
      (diff (some p) c).new_follows = ∅ ∧ (diff (some p) c).unfollows = ∅)
  ∧ (diff none c).new_follows = ∅ ∧ (diff none c).unfollows = ∅ := by
  refine ⟨?_, ?_, rfl, rfl⟩
  · simpa [diff] using disjoint_sdiff_sdiff
  · intro hf
    simp [diff, hf]

/-- Verification of C4 at concrete snapshots of the same identity. -/
theorem diff_delta_invariants_witness :
    Disjoint (diff (some ⟨"brad", 0, {"a", "b"}, 2⟩) ⟨"brad", 1, {"b", "c"}, 2⟩).new_follows
      (diff (some ⟨"brad", 0, {"a", "b"}, 2⟩) ⟨"brad", 1, {"b", "c"}, 2⟩).unfollows
  ∧ ((⟨"brad", 0, {"a", "b"}, 2⟩ : Snapshot).following =
        (⟨"brad", 1, {"b", "c"}, 2⟩ : Snapshot).following →
      (diff (some ⟨"brad", 0, {"a", "b"}, 2⟩) ⟨"brad", 1, {"b", "c"}, 2⟩).new_follows = ∅
    ∧ (diff (some ⟨"brad", 0, {"a", "b"}, 2⟩) ⟨"brad", 1, {"b", "c"}, 2⟩).unfollows = ∅)
  ∧ (diff none ⟨"brad", 1, {"b", "c"}, 2⟩).new_follows = ∅
  ∧ (diff none ⟨"brad", 1, {"b", "c"}, 2⟩).unfollows = ∅ :=
  diff_delta_invariants ⟨"brad", 0, {"a", "b"}, 2⟩ ⟨"brad", 1, {"b", "c"}, 2⟩ rfl

/-! ## Model of the `random` module draws used by the synthetic endpoints -/

/-- Modelled from the Python standard library contract of
`random.randint(lo, hi)`: it returns an integer `N` with `lo ≤ N ≤ hi`.
The generator state is abstracted into an arbitrary draw `c`; reducing the
draw into the inclusive range covers exactly the outcomes any implementation
may return. -/
def randint (lo hi : Int) (c : Nat) : Int :=
  lo + ((c % (hi - lo + 1).toNat : Nat) : Int)

theorem randint_bounds (lo hi : Int) (c : Nat) (h : lo ≤ hi) :
    lo ≤ randint lo hi c ∧ randint lo hi c ≤ hi := by
  unfold randint
  have hpos : 0 < (hi - lo + 1).toNat := by omega
  have hmod : c % (hi - lo + 1).toNat < (hi - lo + 1).toNat := Nat.mod_lt _ hpos
  omega

/-- Modelled from the Python standard library contract of
`random.sample(pop, k)`: it returns `k` elements chosen from `pop` without
replacement, in selection order.  Each step consumes one draw `g i` to pick
the next element, which is then removed from the remaining population. -/
def sample (pop : List String) (k : Nat) (g : Nat → Nat) (i : Nat) : List String :=
  match k, pop with
  | 0, _ => []
  | _ + 1, [] => []
  | k + 1, p :: ps =>
    let x := (p :: ps).getD (g i % (p :: ps).length) ""
    x :: sample ((p :: ps).erase x) k g (i + 1)

theorem getD_mem_of_lt (l : List String) (n : Nat) (d : String) (h : n < l.length) :
    l.getD n d ∈ l := by
  rw [List.getD_eq_getElem l d h]
  exact List.getElem_mem h

theorem sample_subset (k : Nat) (pop : List String) (g : Nat → Nat) (i : Nat) :
    ∀ x ∈ sample pop k g i, x ∈ pop := by
  induction k generalizing pop i with
  | zero => simp [sample]
  | succ k ih =>
    cases pop with
    | nil => simp [sample]
    | cons p ps =>
      intro x hx
      simp only [sample] at hx
      rcases List.mem_cons.mp hx with h | h
      · rw [h]
        exact getD_mem_of_lt _ _ _ (Nat.mod_lt _ (by simp))
      · exact List.erase_subset _ _ (ih _ _ _ h)

theorem sample_nodup (k : Nat) (pop : List String) (g : Nat → Nat) (i : Nat)
    (hn : pop.Nodup) : (sample pop k g i).Nodup := by
  induction k generalizing pop i with
  | zero => simp [sample]
  | succ k ih =>
    cases pop with
    | nil => simp [sample]
    | cons p ps =>
      simp only [sample]
      refine List.nodup_cons.mpr ⟨?_, ih _ _ (hn.erase _)⟩
      intro hmem
      have hx := sample_subset _ _ _ _ _ hmem
      exact ((hn.mem_erase_iff).mp hx).1 rfl

theorem sample_length (k : Nat) (pop : List String) (g : Nat → Nat) (i : Nat) :
    (sample pop k g i).length = min k pop.length := by
  induction k generalizing pop i with
  | zero => simp [sample]
  | succ k ih =>
    cases pop with
    | nil => simp [sample]
    | cons p ps =>
      have hmem : (p :: ps).getD (g i % (p :: ps).length) "" ∈ p :: ps :=
        getD_mem_of_lt _ _ _ (Nat.mod_lt _ (by simp))
      have herase := List.length_erase_of_mem hmem
      simp only [List.length_cons] at herase
      simp only [sample, List.length_cons, ih]
      rw [herase]
      omega

/-! ## Synthetic endpoints (`/track/test`, `/activity-history/{username}`)
and the `/track` stub -/

/-- The predefined pool of potential new follows (main.py lines 119-126; an
identical list is rebuilt inside the `activity_history` loop, lines
174-181). -/
def sample_new_follows : List String :=
  ["kaykay_underscore", "fitnessbaddie24", "thirsttrapqueen",
   "gymbro69", "mysterymua", "chefchaos"]

/-- The predefined pool of potential unfollows (main.py lines 127-134 and
182-189). -/
def sample_unfollows : List String :=
  ["his_ex_gf", "nice_girl_101", "churchgirl97",
   "studybuddy", "workwife", "hometownbestie"]

/-- The JSON report returned by `GET /track/test` (main.py lines 142-149). -/
structure Report where
  timestamp : String
  username : String
  new_follows : List String
  unfollows : List String
  total_following : Int
  commentary : String
deriving DecidableEq

/-- Embedding of `track_test_mode` (main.py lines 110-150).  The calls into
`random` consume draws from the oracle `g`; `datetime.utcnow().isoformat()`
becomes the parameter `now`. -/
def track_test_mode (now : String) (g : Nat → Nat) : Report :=
  let num_new := randint 0 ((max 1 (sample_new_follows.length / 2) : Nat) : Int) (g 0)
  let num_unf := randint 0 ((max 1 (sample_unfollows.length / 2) : Nat) : Int) (g 1)
  let new_follows := if num_new ≠ 0 then sample sample_new_follows num_new.toNat g 2 else []
  let unfollows := if num_unf ≠ 0 then sample sample_unfollows num_unf.toNat g 8 else []
  let total_following := 400 + randint (-20) 20 (g 14)
  { timestamp := now
    username := "test_user"
    new_follows := new_follows
    unfollows := unfollows
    total_following := total_following
    commentary := generate_commentary new_follows unfollows }

/-- One entry of the simulated history (main.py lines 195-201). -/
structure HistoryEntry where
  timestamp : String
  new_follows : List String
  unfollows : List String
  total_following : Int
  commentary : String
deriving DecidableEq

/-- The response of `GET /activity-history/{username}` (main.py line 202). -/
structure HistoryResponse where
  username : String
  history : List HistoryEntry
deriving DecidableEq

/-- One iteration of the `activity_history` loop body (main.py lines
172-201); `base` indexes the draws this iteration consumes. -/
def historySnapshot (now : String) (g : Nat → Nat) (base : Nat) : HistoryEntry :=
  let num_new := randint 0 ((max 1 (sample_new_follows.length / 2) : Nat) : Int) (g base)
  let num_unf := randint 0 ((max 1 (sample_unfollows.length / 2) : Nat) : Int) (g (base + 1))
  let new_follows :=
    if num_new ≠ 0 then sample sample_new_follows num_new.toNat g (base + 2) else []
  let unfollows :=
    if num_unf ≠ 0 then sample sample_unfollows num_unf.toNat g (base + 8) else []
  { timestamp := now
    new_follows := new_follows
    unfollows := unfollows
    total_following := 400 + randint (-20) 20 (g (base + 14))
    commentary := generate_commentary new_follows unfollows }

/-- Embedding of `activity_history` (main.py lines 153-202): between 3 and 7
simulated snapshots are generated for any requested username. -/
def activity_history (username now : String) (g : Nat → Nat) : HistoryResponse :=
  let num_snapshots := randint 3 7 (g 0)
  { username := username
    history :=
      (List.range num_snapshots.toNat).map fun j => historySnapshot now g (1 + 20 * j) }

/-- A request body for `POST /track` (main.py lines 37-40). -/
structure TrackRequest where
  username : String

/-- An HTTP error raised by a handler. -/
structure HTTPException where
  status_code : Nat
  detail : String

/-- Embedding of `track_user` (main.py lines 98-107): the handler
unconditionally raises `HTTPException(status_code=501, ...)`; raising is
modelled as returning `Except.error`. -/
def track_user (req : TrackRequest) : Except HTTPException Report :=
  Except.error
    { status_code := 501
      detail := "Real tracking functionality is not yet implemented." }

/-- C6: every `POST /track` request fails with a 501 Not-Implemented error
and no tracking work is performed — no report is ever produced. -/
theorem track_user_not_implemented (req : TrackRequest) :
    track_user req =
      Except.error ⟨501, "Real tracking functionality is not yet implemented."⟩
  ∧ ∀ r : Report, track_user req ≠ Except.ok r := by
  refine ⟨rfl, fun r h => ?_⟩
  simp [track_user] at h

/-- Verification of C6 at a concrete request. -/
theorem track_user_not_implemented_witness :
    track_user ⟨"brad"⟩ =
      Except.error ⟨501, "Real tracking functionality is not yet implemented."⟩ :=
  (track_user_not_implemented ⟨"brad"⟩).1

/-- C5 counterexample: on a never-observed username the history endpoint
does not return an empty sequence: with the concrete all-zero draw oracle it
returns 3 freshly simulated snapshots. -/
theorem activity_history_nonempty_counterexample :
    (activity_history "never_observed_user" "2026-10-12T00:00:00" (fun _ => 0)).history.length = 3
  ∧ (activity_history "never_observed_user" "2026-10-12T00:00:00" (fun _ => 0)).history ≠ [] := by
  have h3 :
      (activity_history "never_observed_user" "2026-10-12T00:00:00"
        (fun _ => 0)).history.length = 3 := by decide
  refine ⟨h3, fun e => ?_⟩
  rw [e] at h3
  exact absurd h3 (by decide)

/-- C5 amended: the history endpoint never errors, but it also never returns
an empty sequence: for every username — observed or not — it returns between
3 and 7 freshly simulated snapshots (the persistent history store of the
spec is not implemented). -/
theorem activity_history_always_simulated (username now : String) (g : Nat → Nat) :
    3 ≤ (activity_history username now g).history.length
  ∧ (activity_history username now g).history.length ≤ 7
  ∧ (activity_history username now g).history ≠ [] := by
  have hb := randint_bounds 3 7 (g 0) (by decide)
  have hl : (activity_history username now g).history.length = (randint 3 7 (g 0)).toNat := by
    simp [activity_history]
  refine ⟨by omega, by omega, ?_⟩
  rw [← List.length_pos]
  omega

/-- Verification of the amended C5 at a concrete input. -/
theorem activity_history_always_simulated_witness :
    3 ≤ (activity_history "ghost" "2026-10-12T00:00:00" (fun _ => 0)).history.length :=
  (activity_history_always_simulated "ghost" "2026-10-12T00:00:00" (fun _ => 0)).1

/-! ### Properties of the sampled follow/unfollow lists -/

theorem branch_nodup (pop : List String) (hpop : pop.Nodup) (n : Int) (g : Nat → Nat)
    (i : Nat) : (if n ≠ 0 then sample pop n.toNat g i else []).Nodup := by
  split
  · exact sample_nodup _ _ _ _ hpop
  · simp

theorem branch_subset (pop : List String) (n : Int) (g : Nat → Nat) (i : Nat) :
    (if n ≠ 0 then sample pop n.toNat g i else []) ⊆ pop := by
  split
  · intro x hx
    exact sample_subset _ _ _ _ x hx
  · simp

theorem branch_length_le (pop : List String) (n : Int) (hn : n ≤ 3) (g : Nat → Nat)
    (i : Nat) : (if n ≠ 0 then sample pop n.toNat g i else []).length ≤ 3 := by
  split
  · rw [sample_length]
    omega
  · simp

theorem pools_disjoint (l1 l2 : List String) (h1 : l1 ⊆ sample_new_follows)
    (h2 : l2 ⊆ sample_unfollows) : l1.Disjoint l2 := by
  have hp : ∀ a ∈ sample_new_follows, a ∉ sample_unfollows := by decide
  intro a ha1 ha2
  exact hp a (h1 ha1) (h2 ha2)

/-- C9: every `/track/test` report draws its `new_follows` without
duplicates from the fixed six-element new-follow pool and its `unfollows`
without duplicates from the different fixed six-element unfollow pool, each
with at most three handles; since the pools share no handle, the two
reported lists are always disjoint. -/
theorem track_test_mode_sampling (now : String) (g : Nat → Nat) :
    sample_new_follows.length = 6
  ∧ sample_unfollows.length = 6
  ∧ (track_test_mode now g).new_follows.Nodup
  ∧ (track_test_mode now g).new_follows ⊆ sample_new_follows
  ∧ (track_test_mode now g).new_follows.length ≤ 3
  ∧ (track_test_mode now g).unfollows.Nodup
  ∧ (track_test_mode now g).unfollows ⊆ sample_unfollows
  ∧ (track_test_mode now g).unfollows.length ≤ 3
  ∧ (track_test_mode now g).new_follows.Disjoint (track_test_mode now g).unfollows := by
  have hnf : (track_test_mode now g).new_follows =
      (if randint 0 3 (g 0) ≠ 0 then
        sample sample_new_follows (randint 0 3 (g 0)).toNat g 2 else []) := rfl
  have huf : (track_test_mode now g).unfollows =
      (if randint 0 3 (g 1) ≠ 0 then
        sample sample_unfollows (randint 0 3 (g 1)).toNat g 8 else []) := rfl
  have hb0 := randint_bounds 0 3 (g 0) (by decide)
  have hb1 := randint_bounds 0 3 (g 1) (by decide)
  refine ⟨rfl, rfl, ?_, ?_, ?_, ?_, ?_, ?_, ?_⟩
  · rw [hnf]; exact branch_nodup _ (by decide) _ _ _
  · rw [hnf]; exact branch_subset _ _ _ _
  · rw [hnf]; exact branch_length_le _ _ (by omega) _ _
  · rw [huf]; exact branch_nodup _ (by decide) _ _ _
  · rw [huf]; exact branch_subset _ _ _ _
  · rw [huf]; exact branch_length_le _ _ (by omega) _ _
  · exact pools_disjoint _ _ (hnf ▸ branch_subset _ _ _ _) (huf ▸ branch_subset _ _ _ _)

/-- Verification of C9 at a concrete input. -/
theorem track_test_mode_sampling_witness :
    sample_new_follows.length = 6
  ∧ (track_test_mode "t" (fun _ => 0)).new_follows.Nodup
  ∧ (track_test_mode "t" (fun _ => 0)).new_follows.length ≤ 3 :=
  ⟨(track_test_mode_sampling "t" (fun _ => 0)).1,
   (track_test_mode_sampling "t" (fun _ => 0)).2.2.1,
   (track_test_mode_sampling "t" (fun _ => 0)).2.2.2.2.1⟩

/-- C10: every report produced by the synthetic paths — the `/track/test`
report and each entry of `/activity-history/{username}` — carries a
`total_following` between 380 and 420 inclusive (it is `400` plus a draw
from `[-20, 20]`). -/
theorem reports_total_following_in_range (u now : String) (g : Nat → Nat) :
    380 ≤ (track_test_mode now g).total_following
  ∧ (track_test_mode now g).total_following ≤ 420
  ∧ ∀ e ∈ (activity_history u now g).history,
      380 ≤ e.total_following ∧ e.total_following ≤ 420 := by
  have h1 := randint_bounds (-20) 20 (g 14) (by decide)
  have htf : (track_test_mode now g).total_following = 400 + randint (-20) 20 (g 14) := rfl
  refine ⟨by omega, by omega, ?_⟩
  intro e he
  simp only [activity_history, List.mem_map, List.mem_range] at he
  obtain ⟨j, hj, rfl⟩ := he
  have h2 := randint_bounds (-20) 20 (g (1 + 20 * j + 14)) (by decide)
  have he2 : (historySnapshot now g (1 + 20 * j)).total_following =
      400 + randint (-20) 20 (g (1 + 20 * j + 14)) := rfl
  omega

/-- Verification of C10 at a concrete input: with the all-zero oracle both
paths report exactly the lower bound 380. -/
theorem reports_total_following_in_range_witness :
    380 ≤ (track_test_mode "t" (fun _ => 0)).total_following
  ∧ 380 ≤ (historySnapshot "t" (fun _ => 0) 1).total_following :=
  ⟨(reports_total_following_in_range "u" "t" (fun _ => 0)).1,
   ((reports_total_following_in_range "u" "t" (fun _ => 0)).2.2
      (historySnapshot "t" (fun _ => 0) 1) (by decide)).1⟩

/-! ## Report renderer (`create_pdf`, main.py lines 66-95) -/

/-- A reportlab flowable appended to the story: a styled paragraph or a
spacer. -/
inductive Flowable where
  | para (text : String) (style : String)
  | spacer (w h : Nat)
deriving DecidableEq

/-- Embedding of `create_pdf` (main.py lines 66-95): the story — the
sequence of flowables — built for the one-page report.  Writing the story
into a temporary PDF file is I/O of the reportlab collaborator; the document
content is the story itself. -/
def create_pdf (data : Report) : List Flowable :=
  [Flowable.para "IGsnitched Activity Report" "Title",
   Flowable.spacer 1 12,
   Flowable.para ("Timestamp: " ++ data.timestamp) "Normal",
   Flowable.para ("Username: " ++ data.username) "Normal",
   Flowable.para ("Total Following: " ++ toString data.total_following) "Normal",
   Flowable.para ("New Follows: " ++
     (if data.new_follows.isEmpty then "None"
      else String.intercalate ", " data.new_follows)) "Normal",
   Flowable.para ("Unfollows: " ++
     (if data.unfollows.isEmpty then "None"
      else String.intercalate ", " data.unfollows)) "Normal",
   Flowable.spacer 1 12,
   Flowable.para "Brad Mode Commentary:" "Heading2",
   Flowable.para data.commentary "Italic"]

/-- C7: the rendered document contains a title, the report timestamp and
username, the total-following count, the two handle lists comma-joined (or
the explicit marker "None" when a list is empty), and the commentary in a
visually distinct block: an italic paragraph under its own heading. -/
theorem create_pdf_contents (d : Report) :
    Flowable.para "IGsnitched Activity Report" "Title" ∈ create_pdf d
  ∧ Flowable.para ("Timestamp: " ++ d.timestamp) "Normal" ∈ create_pdf d
  ∧ Flowable.para ("Username: " ++ d.username) "Normal" ∈ create_pdf d
  ∧ Flowable.para ("Total Following: " ++ toString d.total_following) "Normal" ∈ create_pdf d
  ∧ (d.new_follows ≠ [] →
      Flowable.para ("New Follows: " ++ String.intercalate ", " d.new_follows) "Normal"
        ∈ create_pdf d)
  ∧ (d.new_follows = [] →
      Flowable.para "New Follows: None" "Normal" ∈ create_pdf d)
  ∧ (d.unfollows ≠ [] →
      Flowable.para ("Unfollows: " ++ String.intercalate ", " d.unfollows) "Normal"
        ∈ create_pdf d)
  ∧ (d.unfollows = [] →
      Flowable.para "Unfollows: None" "Normal" ∈ create_pdf d)
  ∧ Flowable.para "Brad Mode Commentary:" "Heading2" ∈ create_pdf d
  ∧ Flowable.para d.commentary "Italic" ∈ create_pdf d := by
  refine ⟨by simp [create_pdf], by simp [create_pdf], by simp [create_pdf],
    by simp [create_pdf], ?_, ?_, ?_, ?_, by simp [create_pdf], by simp [create_pdf]⟩
  · intro h
    simp [create_pdf, h]
  · intro h
    simp only [create_pdf, h, List.isEmpty_nil, if_true]
    have hx : ("New Follows: " ++ "None") = "New Follows: None" := rfl
    rw [hx]
    simp
  · intro h
    simp [create_pdf, h]
  · intro h
    simp only [create_pdf, h, List.isEmpty_nil, if_true]
    have hx : ("Unfollows: " ++ "None") = "Unfollows: None" := rfl
    rw [hx]
    simp

/-- Verification of C7 at a concrete report with one new follow and no
unfollows. -/
theorem create_pdf_contents_witness :
    Flowable.para "IGsnitched Activity Report" "Title"
      ∈ create_pdf ⟨"ts", "brad", ["a"], [], 400, "c"⟩
  ∧ Flowable.para ("New Follows: " ++ String.intercalate ", " ["a"]) "Normal"
      ∈ create_pdf ⟨"ts", "brad", ["a"], [], 400, "c"⟩
  ∧ Flowable.para "Unfollows: None" "Normal"
      ∈ create_pdf ⟨"ts", "brad", ["a"], [], 400, "c"⟩ :=
  ⟨(create_pdf_contents ⟨"ts", "brad", ["a"], [], 400, "c"⟩).1,
   (create_pdf_contents ⟨"ts", "brad", ["a"], [], 400, "c"⟩).2.2.2.2.1 (by decide),
   (create_pdf_contents ⟨"ts", "brad", ["a"], [], 400, "c"⟩).2.2.2.2.2.2.2.1 rfl⟩

/-- C8 counterexample: `create_pdf` performs no validation: at the concrete
malformed report with `total_following = -5` it produces the complete
ten-element document — it does not fail — and renders the negative count in
the total-following line. -/
theorem create_pdf_renders_malformed :
    create_pdf ⟨"2026-10-12", "test_user", [], [], -5, "c"⟩ =
      [Flowable.para "IGsnitched Activity Report" "Title",
       Flowable.spacer 1 12,
       Flowable.para "Timestamp: 2026-10-12" "Normal",
       Flowable.para "Username: test_user" "Normal",
       Flowable.para "Total Following: -5" "Normal",
       Flowable.para "New Follows: None" "Normal",
       Flowable.para "Unfollows: None" "Normal",
       Flowable.spacer 1 12,
       Flowable.para "Brad Mode Commentary:" "Heading2",
       Flowable.para "c" "Italic"] := by
  decide

/-- C8 amended: the renderer has no error path and does no defensive
validation: even for a malformed report (negative `total_following`) it
produces the full ten-element document, rendering the negative count
verbatim. -/
theorem create_pdf_no_validation (d : Report) (h : d.total_following < 0) :
    (create_pdf d).length = 10
  ∧ Flowable.para ("Total Following: " ++ toString d.total_following) "Normal"
      ∈ create_pdf d :=
  ⟨rfl, by simp [create_pdf]⟩

/-- Verification of the amended C8 at a concrete malformed report. -/
theorem create_pdf_no_validation_witness :
    (create_pdf ⟨"ts", "brad", [], [], -5, "c"⟩).length = 10
  ∧ Flowable.para ("Total Following: " ++ toString (-5 : Int)) "Normal"
      ∈ create_pdf ⟨"ts", "brad", [], [], -5, "c"⟩ :=
  create_pdf_no_validation ⟨"ts", "brad", [], [], -5, "c"⟩ (by decide)

end IGsnitched
